import Mathlib

/-!
Shallow embedding of `src/bundle.rs` from `android-powerstats-rs`: the
decoder for Android's Bundle / Parcel "value" wire format.

Modelling conventions:
* A `Parcel` is an immutable byte buffer (`List Nat`, each byte `< 256`
  after normalisation) together with a cursor position, mirroring
  `BorrowedParcel` with `get_data_size` / `get_data_position`.
* Rust `Result<T, StatusCode>` is modelled by `Outcome`, with a third
  constructor `abort` for Rust panics (`assert!`, `assert_eq!`, `todo!`,
  `.expect(..)`, `.unwrap()`, index out of bounds): a panic aborts the
  process and is distinct from a returned `Err`.
* Decoded strings are kept as their UTF-8 byte sequences (`List Nat`);
  `String` is only byte content to this decoder.
* `Box<dyn ParcelableInstance>` records are opaque to the decoder; they
  are modelled as `Nat` identifiers produced by creator functions.
* State threading is explicit: each read returns the value and the
  advanced parcel.
-/

namespace APS

/-- Binder status codes used by `bundle.rs` (subset of `binder::StatusCode`). -/
inductive StatusCode where
  | NOT_ENOUGH_DATA
  | NAME_NOT_FOUND
  | BAD_VALUE
  deriving DecidableEq, Repr

/-- Outcome of a decoding step: `ok` and `error` are the two sides of the Rust
`Result`; `abort` models a Rust panic (process abort), which is not a returned
error result. -/
inductive Outcome (α : Type) where
  | ok : α → Outcome α
  | error : StatusCode → Outcome α
  | abort : String → Outcome α
  deriving DecidableEq, Repr

/-- True exactly when the outcome is a returned `Err` result (not a success
and not a panic). -/
def Outcome.isErrorResult : Outcome α → Bool
  | .error _ => true
  | _ => false

/-- True exactly when the outcome is a Rust panic / process abort. -/
def Outcome.isAbort : Outcome α → Bool
  | .abort _ => true
  | _ => false

/-- The parcel: an immutable byte buffer and a cursor, mirroring
`BorrowedParcel` with `get_data_size()` (= `data.length`) and
`get_data_position()` (= `pos`). -/
structure Parcel where
  data : List Nat
  pos : Nat
  deriving DecidableEq, Repr

/-- Little-endian 32-bit word from four bytes (bytes normalised mod 256). -/
def leWord (b0 b1 b2 b3 : Nat) : Nat :=
  b0 % 256 + 256 * (b1 % 256) + 65536 * (b2 % 256) + 16777216 * (b3 % 256)

/-- Reinterpret an unsigned 32-bit word as the signed `i32` it encodes. -/
def toI32 (w : Nat) : Int :=
  if w < 2147483648 then (w : Int) else (w : Int) - 4294967296

/-- Reinterpret an unsigned 64-bit word as the signed `i64` it encodes. -/
def toI64 (w : Nat) : Int :=
  if w < 9223372036854775808 then (w : Int) else (w : Int) - 18446744073709551616

/-- Modelled from the spec: the transport's 32-bit primitive read
(`BorrowedParcel::read::<u32>`), code of the external binder crate, not of
this repository. Per the spec the cursor is "an abstract positioned view over
an immutable byte buffer, supporting fixed-width primitive reads": it reads
four little-endian bytes and advances, and a read past the end of the buffer
is a truncation error. -/
def Parcel.readU32 (p : Parcel) : Outcome (Nat × Parcel) :=
  if p.pos + 4 ≤ p.data.length then
    .ok (leWord (p.data.getD p.pos 0) (p.data.getD (p.pos + 1) 0)
          (p.data.getD (p.pos + 2) 0) (p.data.getD (p.pos + 3) 0),
        { p with pos := p.pos + 4 })
  else
    .error .NOT_ENOUGH_DATA

/-- Modelled from the spec: `BorrowedParcel::read::<i32>` (external binder
crate): the same four-byte read, reinterpreted as a signed 32-bit value. -/
def Parcel.readI32 (p : Parcel) : Outcome (Int × Parcel) :=
  match p.readU32 with
  | .ok (w, p1) => .ok (toI32 w, p1)
  | .error e => .error e
  | .abort m => .abort m

/-- Modelled from the spec: `BorrowedParcel::read::<i64>` (external binder
crate): an eight-byte little-endian read reinterpreted as a signed 64-bit
value. -/
def Parcel.readI64 (p : Parcel) : Outcome (Int × Parcel) :=
  if p.pos + 8 ≤ p.data.length then
    .ok (toI64 (leWord (p.data.getD p.pos 0) (p.data.getD (p.pos + 1) 0)
            (p.data.getD (p.pos + 2) 0) (p.data.getD (p.pos + 3) 0)
          + 4294967296 * leWord (p.data.getD (p.pos + 4) 0) (p.data.getD (p.pos + 5) 0)
            (p.data.getD (p.pos + 6) 0) (p.data.getD (p.pos + 7) 0)),
        { p with pos := p.pos + 8 })
  else
    .error .NOT_ENOUGH_DATA

/-- UTF-8 validity of a byte sequence, as checked by Rust's
`std::str::from_utf8` (rejecting overlong forms, surrogates and values above
U+10FFFF). -/
def utf8Valid : List Nat → Bool
  | [] => true
  | b :: rest =>
    if b < 128 then utf8Valid rest
    else if 194 ≤ b ∧ b ≤ 223 then
      match rest with
      | c1 :: rest2 => decide (128 ≤ c1 ∧ c1 ≤ 191) && utf8Valid rest2
      | [] => false
    else if b = 224 then
      match rest with
      | c1 :: c2 :: rest2 =>
          decide (160 ≤ c1 ∧ c1 ≤ 191) && decide (128 ≤ c2 ∧ c2 ≤ 191) && utf8Valid rest2
      | _ => false
    else if (225 ≤ b ∧ b ≤ 236) ∨ b = 238 ∨ b = 239 then
      match rest with
      | c1 :: c2 :: rest2 =>
          decide (128 ≤ c1 ∧ c1 ≤ 191) && decide (128 ≤ c2 ∧ c2 ≤ 191) && utf8Valid rest2
      | _ => false
    else if b = 237 then
      match rest with
      | c1 :: c2 :: rest2 =>
          decide (128 ≤ c1 ∧ c1 ≤ 159) && decide (128 ≤ c2 ∧ c2 ≤ 191) && utf8Valid rest2
      | _ => false
    else if b = 240 then
      match rest with
      | c1 :: c2 :: c3 :: rest2 =>
          decide (144 ≤ c1 ∧ c1 ≤ 191) && decide (128 ≤ c2 ∧ c2 ≤ 191) &&
            decide (128 ≤ c3 ∧ c3 ≤ 191) && utf8Valid rest2
      | _ => false
    else if 241 ≤ b ∧ b ≤ 243 then
      match rest with
      | c1 :: c2 :: c3 :: rest2 =>
          decide (128 ≤ c1 ∧ c1 ≤ 191) && decide (128 ≤ c2 ∧ c2 ≤ 191) &&
            decide (128 ≤ c3 ∧ c3 ≤ 191) && utf8Valid rest2
      | _ => false
    else if b = 244 then
      match rest with
      | c1 :: c2 :: c3 :: rest2 =>
          decide (128 ≤ c1 ∧ c1 ≤ 143) && decide (128 ≤ c2 ∧ c2 ≤ 191) &&
            decide (128 ≤ c3 ∧ c3 ≤ 191) && utf8Valid rest2
      | _ => false
    else false

/-- Rounding up to a whole number of 32-bit words: `x.div_ceil(4)` from the
Rust standard library. -/
def divCeil4 (x : Nat) : Nat :=
  x / 4 + (if x % 4 = 0 then 0 else 1)

/-- Modelled from the spec: `BorrowedParcel::read::<String>` (external binder
crate), the transport's native string convention used for container keys and
type names. Per the spec: "a plain length-prefixed UTF-8 string": an `i32`
length, then the UTF-8 bytes, word-padded. A negative length, truncation, or
invalid UTF-8 is a returned decode error. -/
def Parcel.readString (p : Parcel) : Outcome (List Nat × Parcel) :=
  match p.readI32 with
  | .ok (len, p1) =>
    if len < 0 then .error .BAD_VALUE
    else
      let n := len.toNat
      let padded := 4 * divCeil4 n
      if p1.pos + padded ≤ p1.data.length then
        let bytes := ((p1.data.drop p1.pos).take n).map (· % 256)
        if utf8Valid bytes then .ok (bytes, { p1 with pos := p1.pos + padded })
        else .error .BAD_VALUE
      else .error .NOT_ENOUGH_DATA
  | .error e => .error e
  | .abort m => .abort m

/-- A registered `ParcelableCreator`: consumes bytes from the parcel and
produces one record. The record itself is opaque to the decoder (it is a
`Box<dyn ParcelableInstance>` in the source) and modelled as a `Nat` id. -/
structure ParcelableCreator where
  create_from_parcel : Parcel → Outcome (Nat × Parcel)

/-- The creator registry contents: the map held in the global
`CREATORS: OnceLock<RwLock<HashMap<&str, &dyn ParcelableCreator>>>`,
keyed by type name (UTF-8 bytes). -/
def Registry : Type := List (List Nat × ParcelableCreator)

/-- Hash-map lookup `creators.get(name)` on the registry contents. -/
def lookupCreator (reg : Registry) (nm : List Nat) : Option ParcelableCreator :=
  match reg with
  | [] => none
  | (k, c) :: rest => if k = nm then some c else lookupCreator rest nm

/-- The dynamic value type `Object` of `bundle.rs`. `ParcelableArray` holds
opaque record ids (see `ParcelableCreator`). -/
inductive Object where
  | Null
  | ParcelableArray (records : List Nat)
  | BooleanArray (bools : List Bool)
  | LongArray (longs : List Int)
  deriving DecidableEq, Repr

/-! Parcel value type tags, kept in sync with
`frameworks/native/include/private/binder/ParcelValTypes.h` (the constant
block of `bundle.rs`). -/

def VAL_NULL : Int := -1
def VAL_STRING : Int := 0
def VAL_INTEGER : Int := 1
def VAL_MAP : Int := 2
def VAL_BUNDLE : Int := 3
def VAL_PARCELABLE : Int := 4
def VAL_SHORT : Int := 5
def VAL_LONG : Int := 6
def VAL_FLOAT : Int := 7
def VAL_DOUBLE : Int := 8
def VAL_BOOLEAN : Int := 9
def VAL_CHARSEQUENCE : Int := 10
def VAL_LIST : Int := 11
def VAL_SPARSEARRAY : Int := 12
def VAL_BYTEARRAY : Int := 13
def VAL_STRINGARRAY : Int := 14
def VAL_IBINDER : Int := 15
def VAL_PARCELABLEARRAY : Int := 16
def VAL_OBJECTARRAY : Int := 17
def VAL_INTARRAY : Int := 18
def VAL_LONGARRAY : Int := 19
def VAL_BYTE : Int := 20
def VAL_SERIALIZABLE : Int := 21
def VAL_SPARSEBOOLEANARRAY : Int := 22
def VAL_BOOLEANARRAY : Int := 23
def VAL_CHARSEQUENCEARRAY : Int := 24
def VAL_PERSISTABLEBUNDLE : Int := 25
def VAL_SIZE : Int := 26
def VAL_SIZEF : Int := 27
def VAL_DOUBLEARRAY : Int := 28
def VAL_CHAR : Int := 29
def VAL_SHORTARRAY : Int := 30
def VAL_CHARARRAY : Int := 31
def VAL_FLOATARRAY : Int := 32

/-- The `is_length_prefixed` predicate of `bundle.rs`: the tags whose payload
is preceded by its own byte length. -/
def is_length_prefixed (t : Int) : Bool :=
  t == VAL_MAP || t == VAL_PARCELABLE || t == VAL_LIST || t == VAL_SPARSEARRAY ||
    t == VAL_PARCELABLEARRAY || t == VAL_OBJECTARRAY || t == VAL_SERIALIZABLE

/-- The panic message of the unimplemented arms of `parcel_read_value`: the
argument of the `todo!(..)` the given tag reaches. Every named tag has its own
arm; an unlisted tag reaches the catch-all `todo!("Unknown Parcel value type {t}")`. -/
def valTodoMsg (t : Int) : String :=
  if t = VAL_NULL then "VAL_NULL"
  else if t = VAL_STRING then "VAL_STRING"
  else if t = VAL_INTEGER then "VAL_INTEGER"
  else if t = VAL_MAP then "VAL_MAP"
  else if t = VAL_BUNDLE then "VAL_BUNDLE"
  else if t = VAL_PARCELABLE then "VAL_PARCELABLE"
  else if t = VAL_SHORT then "VAL_SHORT"
  else if t = VAL_LONG then "VAL_LONG"
  else if t = VAL_FLOAT then "VAL_FLOAT"
  else if t = VAL_DOUBLE then "VAL_DOUBLE"
  else if t = VAL_BOOLEAN then "VAL_BOOLEAN"
  else if t = VAL_CHARSEQUENCE then "VAL_CHARSEQUENCE"
  else if t = VAL_LIST then "VAL_LIST"
  else if t = VAL_SPARSEARRAY then "VAL_SPARSEARRAY"
  else if t = VAL_BYTEARRAY then "VAL_BYTEARRAY"
  else if t = VAL_STRINGARRAY then "VAL_STRINGARRAY"
  else if t = VAL_IBINDER then "VAL_IBINDER"
  else if t = VAL_OBJECTARRAY then "VAL_OBJECTARRAY"
  else if t = VAL_INTARRAY then "VAL_INTARRAY"
  else if t = VAL_BYTE then "VAL_BYTE"
  else if t = VAL_SERIALIZABLE then "VAL_SERIALIZABLE"
  else if t = VAL_SPARSEBOOLEANARRAY then "VAL_SPARSEBOOLEANARRAY"
  else if t = VAL_CHARSEQUENCEARRAY then "VAL_CHARSEQUENCEARRAY"
  else if t = VAL_PERSISTABLEBUNDLE then "VAL_PERSISTABLEBUNDLE"
  else if t = VAL_SIZE then "VAL_SIZE"
  else if t = VAL_SIZEF then "VAL_SIZEF"
  else if t = VAL_DOUBLEARRAY then "VAL_DOUBLEARRAY"
  else if t = VAL_CHAR then "VAL_CHAR"
  else if t = VAL_SHORTARRAY then "VAL_SHORTARRAY"
  else if t = VAL_CHARARRAY then "VAL_CHARARRAY"
  else if t = VAL_FLOATARRAY then "VAL_FLOATARRAY"
  else "Unknown Parcel value type " ++ toString t

/-- The element loop of the `VAL_PARCELABLEARRAY` arm
(`readParcelableArrayInternal`): for each element, read a type-name string,
fetch the global registry (a panic if `register_creator` was never called,
from `CREATORS.get().expect(..)`), look the name up (`Err(NAME_NOT_FOUND)` if
absent, with the name reported in a diagnostic), and run the creator. -/
def readParcelableLoop (creators : Option Registry) : Nat → Parcel → Outcome (List Nat × Parcel)
  | 0, p => .ok ([], p)
  | k + 1, p =>
    match p.readString with
    | .ok (nm, p1) =>
      match creators with
      | none => .abort "No CREATORs were ever registered"
      | some reg =>
        match lookupCreator reg nm with
        | some c =>
          match c.create_from_parcel p1 with
          | .ok (obj, p2) =>
            match readParcelableLoop creators k p2 with
            | .ok (objs, p3) => .ok (obj :: objs, p3)
            | .error e => .error e
            | .abort m => .abort m
          | .error e => .error e
          | .abort m => .abort m
        | none => .error .NAME_NOT_FOUND
    | .error e => .error e
    | .abort m => .abort m

/-- The element loop of the `VAL_LONGARRAY` arm (`createLongArray`). -/
def readLongLoop : Nat → Parcel → Outcome (List Int × Parcel)
  | 0, p => .ok ([], p)
  | k + 1, p =>
    match p.readI64 with
    | .ok (v, p1) =>
      match readLongLoop k p1 with
      | .ok (vs, p2) => .ok (v :: vs, p2)
      | .error e => .error e
      | .abort m => .abort m
    | .error e => .error e
    | .abort m => .abort m

/-- The element loop of the `VAL_BOOLEANARRAY` arm (`createBooleanArray`):
each element is a 32-bit word read as `i32`, interpreted as `word != 0`. -/
def readBoolLoop : Nat → Parcel → Outcome (List Bool × Parcel)
  | 0, p => .ok ([], p)
  | k + 1, p =>
    match p.readI32 with
    | .ok (b, p1) =>
      match readBoolLoop k p1 with
      | .ok (bs, p2) => .ok ((b != 0) :: bs, p2)
      | .error e => .error e
      | .abort m => .abort m
    | .error e => .error e
    | .abort m => .abort m

/-- The tag-dispatched payload decoder `parcel_read_value` of `bundle.rs`.
The `creators` argument is the contents of the global `CREATORS` registry
(`none` when `register_creator` was never called). Only
`VAL_PARCELABLEARRAY`, `VAL_LONGARRAY` and `VAL_BOOLEANARRAY` are
implemented; every other arm of the source `match` is a `todo!(..)` panic,
collapsed here into the `valTodoMsg` fallback (the arms test disjoint
constants, so arm order is immaterial). In the parcelable-array and
long-array arms, the source runs `Vec::with_capacity(n as usize)` before its
loop: for every negative `n` the sign-extended `usize` capacity makes
`with_capacity` deterministically panic with "capacity overflow" before
anything else is read, so a negative count aborts; for `n ≥ 0`,
`with_capacity` succeeds and `for _ in 0..n` runs `n` iterations, hence
`n.toNat`. (In the boolean-array arm, `with_capacity` sits inside the
branch where `0 ≤ n` has already been checked.) -/
def parcel_read_value (creators : Option Registry) (t : Int) (p : Parcel) :
    Outcome (Object × Parcel) :=
  if t = VAL_PARCELABLEARRAY then
    match p.readI32 with
    | .ok (n, p1) =>
      if n < 0 then .abort "capacity overflow"
      else
        match readParcelableLoop creators n.toNat p1 with
        | .ok (objs, p2) => .ok (.ParcelableArray objs, p2)
        | .error e => .error e
        | .abort m => .abort m
    | .error e => .error e
    | .abort m => .abort m
  else if t = VAL_LONGARRAY then
    match p.readI32 with
    | .ok (n, p1) =>
      if n < 0 then .abort "capacity overflow"
      else
        match readLongLoop n.toNat p1 with
        | .ok (vs, p2) => .ok (.LongArray vs, p2)
        | .error e => .error e
        | .abort m => .abort m
    | .error e => .error e
    | .abort m => .abort m
  else if t = VAL_BOOLEANARRAY then
    match p.readI32 with
    | .ok (n, p1) =>
      let avail : Int := (p1.data.length : Int) - (p1.pos : Int)
      if 0 ≤ n ∧ n ≤ avail.tdiv 4 then
        match readBoolLoop n.toNat p1 with
        | .ok (bs, p2) => .ok (.BooleanArray bs, p2)
        | .error e => .error e
        | .abort m => .abort m
      else .ok (.Null, p1)
    | .error e => .error e
    | .abort m => .abort m
  else .abort (valTodoMsg t)

/-- The dispatcher `parcel_read_value_type` of `bundle.rs`: read the tag; for
a length-prefixed tag read the 32-bit length, record `start`, decode the
payload, then `assert_eq!(parcel.get_data_position(), start + length)` — a
panic on mismatch. -/
def parcel_read_value_type (creators : Option Registry) (p : Parcel) :
    Outcome (Object × Parcel) :=
  match p.readI32 with
  | .ok (t, p1) =>
    if is_length_prefixed t then
      match p1.readI32 with
      | .ok (length, p2) =>
        match parcel_read_value creators t p2 with
        | .ok (r, p3) =>
          if (p3.pos : Int) = (p2.pos : Int) + length then .ok (r, p3)
          else .abort "assertion failed: get_data_position() == start + length"
        | .error e => .error e
        | .abort m => .abort m
      | .error e => .error e
      | .abort m => .abort m
    else parcel_read_value creators t p1
  | .error e => .error e
  | .abort m => .abort m

/-- The four bytes of a 32-bit word, little-endian: the effect of
`bytemuck::cast_slice` on one `u32`. -/
def wordBytes (w : Nat) : List Nat :=
  [w % 256, w / 256 % 256, w / 65536 % 256, w / 16777216 % 256]

/-- The word-collection loop of `parcel_read_string8`:
`(0..k).map(|_| parcel.read()).collect::<Result<Vec<u32>, _>>()`. -/
def readWords : Nat → Parcel → Outcome (List Nat × Parcel)
  | 0, p => .ok ([], p)
  | k + 1, p =>
    match p.readU32 with
    | .ok (w, p1) =>
      match readWords k p1 with
      | .ok (ws, p2) => .ok (w :: ws, p2)
      | .error e => .error e
      | .abort m => .abort m
    | .error e => .error e
    | .abort m => .abort m

/-- The `parcel_read_string8` function of `bundle.rs`: read a `u32` length
`len` (`len + 1` wraps as `u32` arithmetic), read `(len+1).div_ceil(4)` words,
cast them to bytes, `assert_eq!(chars[len], 0)` (an out-of-range index is
itself a panic), and `from_utf8(..).unwrap()` the first `len` bytes — both
panics, not returned errors. Returns the UTF-8 content bytes. -/
def parcel_read_string8 (p : Parcel) : Outcome (List Nat × Parcel) :=
  match p.readU32 with
  | .ok (len, p1) =>
    let len_with_nul := (len + 1) % 4294967296
    match readWords (divCeil4 len_with_nul) p1 with
    | .ok (words, p2) =>
      let chars := (words.map wordBytes).flatten
      match chars.get? len with
      | some b =>
        if b = 0 then
          if utf8Valid (chars.take len) then .ok (chars.take len, p2)
          else .abort "called `Result::unwrap()` on an `Err` value: Utf8Error"
        else .abort "assertion failed: chars[len as usize] == 0"
      | none => .abort "index out of bounds"
    | .error e => .error e
    | .abort m => .abort m
  | .error e => .error e
  | .abort m => .abort m

/-- The `Bundle` of `bundle.rs`: a map from string keys to dynamic values.
The source's `HashMap<String, Object>` is modelled as an association list
with `insert` overwriting (iteration order is unspecified and never relied
upon). -/
structure Bundle where
  map : List (List Nat × Object)
  deriving DecidableEq, Repr

/-- Hash-map `insert`: replaces any previous binding of the key. -/
def mapInsert (m : List (List Nat × Object)) (k : List Nat) (v : Object) :
    List (List Nat × Object) :=
  m.filter (fun e => e.1 ≠ k) ++ [(k, v)]

/-- The key/value entry loop of `Bundle::deserialize`: for each entry read a
plain string key, then one tagged value via `parcel_read_value_type`, and
insert it into the map. -/
def bundleLoop (creators : Option Registry) :
    Nat → Parcel → List (List Nat × Object) → Outcome (Bundle × Parcel)
  | 0, p, m => .ok (⟨m⟩, p)
  | k + 1, p, m =>
    match p.readString with
    | .ok (key, p1) =>
      match parcel_read_value_type creators p1 with
      | .ok (v, p2) => bundleLoop creators k p2 (mapInsert m key v)
      | .error e => .error e
      | .abort msg => .abort msg
    | .error e => .error e
    | .abort msg => .abort msg

/-- `Bundle::deserialize` of `bundle.rs`: read the presence flag and
`assert!(is_set == 1)`; read the total length and `assert!(length >= 0)`;
a zero length short-circuits to an empty bundle; otherwise read (and discard)
the magic, read the entry count, and run the entry loop (`for _ in 0..count`
runs `max(count, 0)` iterations). -/
def Bundle.deserialize (creators : Option Registry) (p : Parcel) :
    Outcome (Bundle × Parcel) :=
  match p.readI32 with
  | .ok (is_set, p1) =>
    if is_set = 1 then
      match p1.readI32 with
      | .ok (length, p2) =>
        if 0 ≤ length then
          if length = 0 then .ok (⟨[]⟩, p2)
          else
            match p2.readI32 with
            | .ok (_magic, p3) =>
              match p3.readI32 with
              | .ok (count, p4) => bundleLoop creators count.toNat p4 []
              | .error e => .error e
              | .abort m => .abort m
            | .error e => .error e
            | .abort m => .abort m
        else .abort ("Bad length " ++ toString length)
      | .error e => .error e
      | .abort m => .abort m
    else .abort "assertion failed: is_set == 1"
  | .error e => .error e
  | .abort m => .abort m

/-! Auxiliary notions and lemmas about the embedding. -/

/-- The sequence of `k` consecutive little-endian 32-bit words of `data`
starting at byte offset `pos`. -/
def wordsAt (data : List Nat) : Nat → Nat → List Nat
  | _, 0 => []
  | pos, k + 1 =>
    leWord (data.getD pos 0) (data.getD (pos + 1) 0) (data.getD (pos + 2) 0)
        (data.getD (pos + 3) 0) ::
      wordsAt data (pos + 4) k

lemma leWord_lt (b0 b1 b2 b3 : Nat) : leWord b0 b1 b2 b3 < 4294967296 := by
  unfold leWord
  omega

lemma wordsAt_lt {data : List Nat} : ∀ {pos k : Nat} {w : Nat},
    w ∈ wordsAt data pos k → w < 4294967296 := by
  intro pos k
  induction k generalizing pos with
  | zero => intro w hw; simp [wordsAt] at hw
  | succ k ih =>
    intro w hw
    rw [wordsAt] at hw
    rcases List.mem_cons.mp hw with h | h
    · subst h; exact leWord_lt _ _ _ _
    · exact ih h

lemma toI32_eq_zero_iff {w : Nat} (h : w < 4294967296) : toI32 w = 0 ↔ w = 0 := by
  unfold toI32
  split <;> omega

lemma toI32_bne_zero {w : Nat} (h : w < 4294967296) : (toI32 w != 0) = (w != 0) := by
  rw [Bool.eq_iff_iff]
  simp only [bne_iff_ne, ne_eq]
  exact not_congr (toI32_eq_zero_iff h)

lemma int_tdiv_coe (a b : Nat) : Int.tdiv (a : Int) (b : Int) = ((a / b : Nat) : Int) := rfl

lemma int_tdiv_four (a : Nat) : Int.tdiv (a : Int) 4 = ((a / 4 : Nat) : Int) := rfl

lemma readU32_ok_state {p q : Parcel} {w : Nat} (h : p.readU32 = .ok (w, q)) :
    q.data = p.data ∧ q.pos = p.pos + 4 ∧ p.pos + 4 ≤ p.data.length := by
  unfold Parcel.readU32 at h
  split at h
  · cases h
    exact ⟨rfl, rfl, by assumption⟩
  · cases h

lemma readI32_ok_state {p q : Parcel} {v : Int} (h : p.readI32 = .ok (v, q)) :
    q.data = p.data ∧ q.pos = p.pos + 4 ∧ p.pos + 4 ≤ p.data.length := by
  unfold Parcel.readI32 at h
  rcases hu : p.readU32 with ⟨w, q'⟩ | e | m <;> rw [hu] at h <;> cases h
  exact readU32_ok_state hu

lemma readU32_of_bound {p : Parcel} (h : p.pos + 4 ≤ p.data.length) :
    p.readU32 = .ok (leWord (p.data.getD p.pos 0) (p.data.getD (p.pos + 1) 0)
        (p.data.getD (p.pos + 2) 0) (p.data.getD (p.pos + 3) 0),
      ⟨p.data, p.pos + 4⟩) := by
  unfold Parcel.readU32
  rw [if_pos h]

lemma readWords_ok : ∀ (k : Nat) (p : Parcel), p.pos + 4 * k ≤ p.data.length →
    readWords k p = .ok (wordsAt p.data p.pos k, ⟨p.data, p.pos + 4 * k⟩) := by
  intro k
  induction k with
  | zero =>
    intro p _
    simp [readWords, wordsAt]
  | succ k ih =>
    intro p h
    have h4 : p.pos + 4 ≤ p.data.length := by omega
    rw [readWords, readU32_of_bound h4]
    dsimp only
    have h' : (⟨p.data, p.pos + 4⟩ : Parcel).pos + 4 * k ≤
        (⟨p.data, p.pos + 4⟩ : Parcel).data.length := by
      dsimp only
      omega
    rw [ih ⟨p.data, p.pos + 4⟩ h']
    dsimp only
    have harith : p.pos + 4 * (k + 1) = p.pos + 4 + 4 * k := by omega
    rw [wordsAt, harith]

lemma readWords_state : ∀ {k : Nat} {p q : Parcel} {ws : List Nat},
    readWords k p = .ok (ws, q) →
    q.data = p.data ∧ q.pos = p.pos + 4 * k ∧ ws.length = k := by
  intro k
  induction k with
  | zero =>
    intro p q ws h
    rw [readWords] at h
    cases h
    exact ⟨rfl, by omega, rfl⟩
  | succ k ih =>
    intro p q ws h
    rw [readWords] at h
    rcases hu : p.readU32 with ⟨w, p1⟩ | e | m <;> rw [hu] at h <;> dsimp only at h
    · rcases hr : readWords k p1 with ⟨ws', p2⟩ | e | m <;> rw [hr] at h <;>
        dsimp only at h <;> cases h
      obtain ⟨hd, hp, hl⟩ := ih hr
      obtain ⟨hd', hp', _⟩ := readU32_ok_state hu
      refine ⟨by rw [hd, hd'], by rw [hp, hp']; omega, by simp [hl]⟩
    · cases h
    · cases h

lemma readBoolLoop_ok : ∀ (k : Nat) (p : Parcel), p.pos + 4 * k ≤ p.data.length →
    readBoolLoop k p =
      .ok ((wordsAt p.data p.pos k).map (fun w => toI32 w != 0),
        ⟨p.data, p.pos + 4 * k⟩) := by
  intro k
  induction k with
  | zero =>
    intro p _
    simp [readBoolLoop, wordsAt]
  | succ k ih =>
    intro p h
    have h4 : p.pos + 4 ≤ p.data.length := by omega
    rw [readBoolLoop, Parcel.readI32, readU32_of_bound h4]
    dsimp only
    have h' : (⟨p.data, p.pos + 4⟩ : Parcel).pos + 4 * k ≤
        (⟨p.data, p.pos + 4⟩ : Parcel).data.length := by
      dsimp only
      omega
    rw [ih ⟨p.data, p.pos + 4⟩ h']
    dsimp only
    have harith : p.pos + 4 * (k + 1) = p.pos + 4 + 4 * k := by omega
    rw [wordsAt, harith]
    simp only [List.map_cons]

/-! Claim theorems. -/

/-- C1: for every value whose tag is in the length-prefixed subset, the
dispatcher reads a 32-bit length after the tag, records the cursor position
`start`, decodes the payload, and succeeds exactly when the cursor afterwards
equals `start + length`; a payload ending at any other position makes the
decode fail loudly (the `assert_eq!` panic), never silently desynchronize. -/
theorem C1_length_prefix_integrity (creators : Option Registry) (p p1 p2 p3 : Parcel)
    (t length : Int) (r : Object)
    (ht : p.readI32 = .ok (t, p1)) (hlp : is_length_prefixed t = true)
    (hl : p1.readI32 = .ok (length, p2))
    (hv : parcel_read_value creators t p2 = .ok (r, p3)) :
    ((p3.pos : Int) = (p2.pos : Int) + length →
        parcel_read_value_type creators p = .ok (r, p3)) ∧
    ((p3.pos : Int) ≠ (p2.pos : Int) + length →
        parcel_read_value_type creators p =
          .abort "assertion failed: get_data_position() == start + length") := by
  rw [parcel_read_value_type, ht]
  dsimp only
  rw [if_pos hlp, hl]
  dsimp only
  rw [hv]
  dsimp only
  constructor
  · intro hpos
    rw [if_pos hpos]
  · intro hpos
    rw [if_neg hpos]

/-- C1 witness: a concrete length-prefixed value (a polymorphic-record array
with zero elements and declared length 4) decodes with the cursor landing at
exactly `start + length`. -/
theorem C1_witness :
    parcel_read_value_type (some []) ⟨[16, 0, 0, 0, 4, 0, 0, 0, 0, 0, 0, 0], 0⟩ =
      .ok (.ParcelableArray [], ⟨[16, 0, 0, 0, 4, 0, 0, 0, 0, 0, 0, 0], 12⟩) :=
  (C1_length_prefix_integrity (some []) ⟨[16, 0, 0, 0, 4, 0, 0, 0, 0, 0, 0, 0], 0⟩
      ⟨[16, 0, 0, 0, 4, 0, 0, 0, 0, 0, 0, 0], 4⟩ ⟨[16, 0, 0, 0, 4, 0, 0, 0, 0, 0, 0, 0], 8⟩
      ⟨[16, 0, 0, 0, 4, 0, 0, 0, 0, 0, 0, 0], 12⟩ 16 4 (.ParcelableArray [])
      rfl rfl rfl rfl).1 (by decide)

/-- C2: for a boolean-array value, after reading the signed 32-bit count `n`,
a negative `n` or an `n` exceeding the remaining bytes divided by 4 yields
`Null` (no further word is read, no out-of-bounds access); otherwise exactly
`n` 32-bit words are read in order and the result is `BooleanArray` whose
element `i` is true iff word `i` is nonzero. -/
theorem C2_boolean_array_bounds (creators : Option Registry) (p p1 : Parcel) (n : Int)
    (h : p.readI32 = .ok (n, p1)) (hp : p1.pos ≤ p1.data.length) :
    (n < 0 ∨ ((p1.data.length : Int) - (p1.pos : Int)).tdiv 4 < n →
        parcel_read_value creators VAL_BOOLEANARRAY p = .ok (.Null, p1)) ∧
    (0 ≤ n → n ≤ ((p1.data.length : Int) - (p1.pos : Int)).tdiv 4 →
        parcel_read_value creators VAL_BOOLEANARRAY p =
          .ok (.BooleanArray ((wordsAt p1.data p1.pos n.toNat).map (fun w => w != 0)),
            ⟨p1.data, p1.pos + 4 * n.toNat⟩)) := by
  rw [parcel_read_value]
  rw [if_neg (by decide : ¬ VAL_BOOLEANARRAY = VAL_PARCELABLEARRAY),
    if_neg (by decide : ¬ VAL_BOOLEANARRAY = VAL_LONGARRAY),
    if_pos (rfl : VAL_BOOLEANARRAY = VAL_BOOLEANARRAY), h]
  dsimp only
  constructor
  · intro hg
    have hng : ¬ (0 ≤ n ∧ n ≤ ((p1.data.length : Int) - (p1.pos : Int)).tdiv 4) := by
      rcases hg with hcase | hcase
      · exact fun hc => absurd hc.1 (not_le.mpr hcase)
      · exact fun hc => absurd hc.2 (not_le.mpr hcase)
    rw [if_neg hng]
  · intro hn0 hnd
    rw [if_pos ⟨hn0, hnd⟩]
    have hD : ((p1.data.length : Int) - (p1.pos : Int)) =
        ((p1.data.length - p1.pos : Nat) : Int) := by omega
    rw [hD, int_tdiv_four] at hnd
    have hq : n.toNat ≤ (p1.data.length - p1.pos) / 4 := by omega
    have hbound : p1.pos + 4 * n.toNat ≤ p1.data.length := by omega
    rw [readBoolLoop_ok n.toNat p1 hbound]
    dsimp only
    have hmap : (wordsAt p1.data p1.pos n.toNat).map (fun w => toI32 w != 0) =
        (wordsAt p1.data p1.pos n.toNat).map (fun w => w != 0) :=
      List.map_congr_left (fun w hw => toI32_bne_zero (wordsAt_lt hw))
    rw [hmap]

/-- C2 witness: count 2 with words 5 and 0 decodes to `[true, false]`; a
count of 9 against 4 remaining bytes decodes to `Null` without moving the
cursor past the count. -/
theorem C2_witness :
    parcel_read_value none VAL_BOOLEANARRAY ⟨[2, 0, 0, 0, 5, 0, 0, 0, 0, 0, 0, 0], 0⟩ =
      .ok (.BooleanArray [true, false], ⟨[2, 0, 0, 0, 5, 0, 0, 0, 0, 0, 0, 0], 12⟩) ∧
    parcel_read_value none VAL_BOOLEANARRAY ⟨[9, 0, 0, 0, 5, 0, 0, 0], 0⟩ =
      .ok (.Null, ⟨[9, 0, 0, 0, 5, 0, 0, 0], 4⟩) :=
  ⟨(C2_boolean_array_bounds none ⟨[2, 0, 0, 0, 5, 0, 0, 0, 0, 0, 0, 0], 0⟩
      ⟨[2, 0, 0, 0, 5, 0, 0, 0, 0, 0, 0, 0], 4⟩ 2 rfl (by decide)).2 (by decide) (by decide),
   (C2_boolean_array_bounds none ⟨[9, 0, 0, 0, 5, 0, 0, 0], 0⟩
      ⟨[9, 0, 0, 0, 5, 0, 0, 0], 4⟩ 9 rfl (by decide)).1 (by decide)⟩

/-- C3: a container whose presence flag is 1 and whose 32-bit total length is
exactly 0 decodes to an empty `Bundle`, consuming only the flag and the length
(8 bytes): magic, entry count and any trailing bytes are not read. -/
theorem C3_zero_length_empty (creators : Option Registry) (p p1 p2 : Parcel)
    (h1 : p.readI32 = .ok (1, p1)) (h2 : p1.readI32 = .ok (0, p2)) :
    Bundle.deserialize creators p = .ok (⟨[]⟩, p2) ∧
      p2.data = p.data ∧ p2.pos = p.pos + 8 := by
  obtain ⟨hd1, hp1, _⟩ := readI32_ok_state h1
  obtain ⟨hd2, hp2, _⟩ := readI32_ok_state h2
  refine ⟨?_, by rw [hd2, hd1], by omega⟩
  rw [Bundle.deserialize, h1]
  dsimp only
  rw [if_pos rfl, h2]
  dsimp only
  rw [if_pos (le_refl (0 : Int)), if_pos (rfl : (0 : Int) = 0)]

/-- C3 witness: a buffer with presence 1, length 0 and four trailing garbage
bytes decodes to the empty bundle with the cursor at offset 8, leaving the
garbage unread. -/
theorem C3_witness :
    Bundle.deserialize none ⟨[1, 0, 0, 0, 0, 0, 0, 0, 9, 9, 9, 9], 0⟩ =
      .ok (⟨[]⟩, ⟨[1, 0, 0, 0, 0, 0, 0, 0, 9, 9, 9, 9], 8⟩) :=
  (C3_zero_length_empty none ⟨[1, 0, 0, 0, 0, 0, 0, 0, 9, 9, 9, 9], 0⟩
      ⟨[1, 0, 0, 0, 0, 0, 0, 0, 9, 9, 9, 9], 4⟩
      ⟨[1, 0, 0, 0, 0, 0, 0, 0, 9, 9, 9, 9], 8⟩ rfl rfl).1

/-- C4 counterexample: the claim says an unimplemented tag is "returned as an
error result"; on tag `VAL_STRING` the code instead panics (`todo!`), which is
not an error result. -/
theorem C4_counterexample :
    parcel_read_value none VAL_STRING ⟨[], 0⟩ = .abort "VAL_STRING" ∧
      (parcel_read_value none VAL_STRING ⟨[], 0⟩).isErrorResult = false :=
  ⟨rfl, rfl⟩

/-- C4 (amended): for every tag other than the three implemented ones
(polymorphic-record-array, int64-array, boolean-array), including unknown tag
integers, the dispatcher fails with a distinct `todo!` panic carrying the
offending tag (its name for a known tag, the integer for an unknown one),
rather than returning an error result, guessing a byte layout, or silently
skipping. -/
theorem C4_unsupported_tag_panics (creators : Option Registry) (t : Int) (p : Parcel)
    (h16 : t ≠ VAL_PARCELABLEARRAY) (h19 : t ≠ VAL_LONGARRAY)
    (h23 : t ≠ VAL_BOOLEANARRAY) :
    parcel_read_value creators t p = .abort (valTodoMsg t) ∧
      (parcel_read_value creators t p).isErrorResult = false := by
  rw [parcel_read_value, if_neg h16, if_neg h19, if_neg h23]
  exact ⟨rfl, rfl⟩

/-- C4 witness: tag `VAL_SHORT` (5) panics with its tag name and yields no
error result. -/
theorem C4_witness :
    parcel_read_value none VAL_SHORT ⟨[], 0⟩ = .abort (valTodoMsg VAL_SHORT) ∧
      (parcel_read_value none VAL_SHORT ⟨[], 0⟩).isErrorResult = false :=
  C4_unsupported_tag_panics none VAL_SHORT ⟨[], 0⟩ (by decide) (by decide) (by decide)

/-- C7 counterexample: the claim says a presence flag other than 1 aborts
"with an error result"; on flag 0 the code instead panics
(`assert!(is_set == 1)`), which is not an error result. -/
theorem C7_counterexample :
    Bundle.deserialize none ⟨[0, 0, 0, 0], 0⟩ = .abort "assertion failed: is_set == 1" ∧
      (Bundle.deserialize none ⟨[0, 0, 0, 0], 0⟩).isErrorResult = false :=
  ⟨rfl, rfl⟩

/-- C7 (amended): container decoding requires the 32-bit presence flag to
equal 1 and a nonnegative 32-bit total length; a flag other than 1 or a
negative length makes the whole decode abort by panicking (`assert!`), not by
returning an error result. -/
theorem C7_framing_asserts_panic (creators : Option Registry) (p p1 p2 : Parcel)
    (v L : Int) (h1 : p.readI32 = .ok (v, p1)) :
    (v ≠ 1 → Bundle.deserialize creators p = .abort "assertion failed: is_set == 1") ∧
    (v = 1 → p1.readI32 = .ok (L, p2) → L < 0 →
        Bundle.deserialize creators p = .abort ("Bad length " ++ toString L)) := by
  constructor
  · intro hv
    rw [Bundle.deserialize, h1]
    dsimp only
    rw [if_neg hv]
  · intro hv h2 hL
    subst hv
    rw [Bundle.deserialize, h1]
    dsimp only
    rw [if_pos rfl, h2]
    dsimp only
    rw [if_neg (by omega : ¬ (0 : Int) ≤ L)]

/-- C7 witness: presence flag 2 panics on the presence assertion; presence 1
with length −1 panics with "Bad length -1". -/
theorem C7_witness :
    Bundle.deserialize none ⟨[2, 0, 0, 0], 0⟩ = .abort "assertion failed: is_set == 1" ∧
      Bundle.deserialize none ⟨[1, 0, 0, 0, 255, 255, 255, 255], 0⟩ =
        .abort ("Bad length " ++ toString (-1 : Int)) :=
  ⟨(C7_framing_asserts_panic none ⟨[2, 0, 0, 0], 0⟩ ⟨[2, 0, 0, 0], 4⟩ ⟨[2, 0, 0, 0], 4⟩
      2 0 rfl).1 (by decide),
   (C7_framing_asserts_panic none ⟨[1, 0, 0, 0, 255, 255, 255, 255], 0⟩
      ⟨[1, 0, 0, 0, 255, 255, 255, 255], 4⟩ ⟨[1, 0, 0, 0, 255, 255, 255, 255], 8⟩
      1 (-1) rfl).2 rfl rfl (by decide)⟩

/-- C9: a container with presence flag 1, positive total length and a
negative 32-bit entry count decodes successfully to a `Bundle` with zero
entries: the entry loop runs zero times, so the negative count is silently
treated as zero rather than rejected. -/
theorem C9_negative_count_empty (creators : Option Registry) (p p1 p2 p3 p4 : Parcel)
    (L M c : Int) (h1 : p.readI32 = .ok (1, p1)) (h2 : p1.readI32 = .ok (L, p2))
    (hL : 0 < L) (h3 : p2.readI32 = .ok (M, p3)) (h4 : p3.readI32 = .ok (c, p4))
    (hc : c < 0) :
    Bundle.deserialize creators p = .ok (⟨[]⟩, p4) := by
  rw [Bundle.deserialize, h1]
  dsimp only
  rw [if_pos rfl, h2]
  dsimp only
  rw [if_pos (le_of_lt hL), if_neg (by omega : ¬ L = 0), h3]
  dsimp only
  rw [h4]
  dsimp only
  rw [show c.toNat = 0 from Int.toNat_eq_zero.mpr (le_of_lt hc), bundleLoop]

/-- C9 witness: presence 1, length 12, the `BNDL` magic and count −1 decode
to an empty bundle. -/
theorem C9_witness :
    Bundle.deserialize none
        ⟨[1, 0, 0, 0, 12, 0, 0, 0, 66, 78, 68, 76, 255, 255, 255, 255], 0⟩ =
      .ok (⟨[]⟩, ⟨[1, 0, 0, 0, 12, 0, 0, 0, 66, 78, 68, 76, 255, 255, 255, 255], 16⟩) :=
  C9_negative_count_empty none
    ⟨[1, 0, 0, 0, 12, 0, 0, 0, 66, 78, 68, 76, 255, 255, 255, 255], 0⟩
    ⟨[1, 0, 0, 0, 12, 0, 0, 0, 66, 78, 68, 76, 255, 255, 255, 255], 4⟩
    ⟨[1, 0, 0, 0, 12, 0, 0, 0, 66, 78, 68, 76, 255, 255, 255, 255], 8⟩
    ⟨[1, 0, 0, 0, 12, 0, 0, 0, 66, 78, 68, 76, 255, 255, 255, 255], 12⟩
    ⟨[1, 0, 0, 0, 12, 0, 0, 0, 66, 78, 68, 76, 255, 255, 255, 255], 16⟩
    12 1279544898 (-1) rfl rfl (by decide) rfl (by decide) (by decide)

/-- C5 counterexample: the claim says a non-null byte at offset `len`
surfaces "as a returned error result, not a process abort"; on a buffer whose
terminator byte is 66 the code instead panics (`assert_eq!`), which is not an
error result. -/
theorem C5_counterexample :
    parcel_read_string8 ⟨[1, 0, 0, 0, 65, 66, 0, 0], 0⟩ =
      .abort "assertion failed: chars[len as usize] == 0" ∧
      (parcel_read_string8 ⟨[1, 0, 0, 0, 65, 66, 0, 0], 0⟩).isErrorResult = false :=
  ⟨rfl, rfl⟩

/-- C5 (amended): in String8 decoding, a byte at offset `len` that is not the
null terminator, and content bytes `[0, len)` that are not valid UTF-8, each
make the decode panic (`assert_eq!` respectively `.unwrap()`) — a process
abort, not a returned error result and not a silent truncation. -/
theorem C5_string8_malformed_panics (p p1 p2 : Parcel) (len b : Nat) (ws : List Nat)
    (hr : p.readU32 = .ok (len, p1))
    (hw : readWords (divCeil4 ((len + 1) % 4294967296)) p1 = .ok (ws, p2)) :
    ((ws.map wordBytes).flatten.get? len = some b → b ≠ 0 →
        parcel_read_string8 p = .abort "assertion failed: chars[len as usize] == 0") ∧
    ((ws.map wordBytes).flatten.get? len = some 0 →
        utf8Valid ((ws.map wordBytes).flatten.take len) = false →
        parcel_read_string8 p =
          .abort "called `Result::unwrap()` on an `Err` value: Utf8Error") := by
  constructor
  · intro hg hb
    rw [parcel_read_string8, hr]
    dsimp only
    rw [hw]
    dsimp only
    rw [hg]
    dsimp only
    rw [if_neg hb]
  · intro hg hu
    rw [parcel_read_string8, hr]
    dsimp only
    rw [hw]
    dsimp only
    rw [hg]
    dsimp only
    rw [if_pos (rfl : (0 : Nat) = 0), hu, if_neg Bool.false_ne_true]

/-- C5 witness: a String8 of length 1 whose content byte is 255 (invalid
UTF-8, with a correct terminator) panics in the UTF-8 `.unwrap()`. -/
theorem C5_witness :
    parcel_read_string8 ⟨[1, 0, 0, 0, 255, 0, 0, 0], 0⟩ =
      .abort "called `Result::unwrap()` on an `Err` value: Utf8Error" :=
  (C5_string8_malformed_panics ⟨[1, 0, 0, 0, 255, 0, 0, 0], 0⟩
      ⟨[1, 0, 0, 0, 255, 0, 0, 0], 4⟩ ⟨[1, 0, 0, 0, 255, 0, 0, 0], 8⟩
      1 0 [255] rfl rfl).2 rfl rfl

/-- C6: during polymorphic-record-array decoding, an element type name with
no creator registry entry makes the decode fail with the name-not-found error
(`StatusCode::NAME_NOT_FOUND`, with the missing name reported by the source's
diagnostic); the error value exposes no partial collection, and the failure
aborts the whole value decode no matter how many elements remain undecoded. -/
theorem C6_unregistered_name_aborts (reg : Registry) (k : Nat) (p p1 q q1 : Parcel)
    (nm : List Nat) (n : Int)
    (hs : p.readString = .ok (nm, p1)) (hl : lookupCreator reg nm = none)
    (hn : q.readI32 = .ok (n, q1)) (h1 : 1 ≤ n) (hq : q1 = p) :
    readParcelableLoop (some reg) (k + 1) p = .error .NAME_NOT_FOUND ∧
      parcel_read_value (some reg) VAL_PARCELABLEARRAY q = .error .NAME_NOT_FOUND := by
  have hloop : ∀ k' : Nat,
      readParcelableLoop (some reg) (k' + 1) p = .error .NAME_NOT_FOUND := by
    intro k'
    rw [readParcelableLoop, hs]
    dsimp only
    rw [hl]
  refine ⟨hloop k, ?_⟩
  rw [parcel_read_value, if_pos (rfl : VAL_PARCELABLEARRAY = VAL_PARCELABLEARRAY), hn]
  dsimp only
  rw [if_neg (by omega : ¬ n < 0)]
  obtain ⟨m, hm⟩ : ∃ m, n.toNat = m + 1 := ⟨n.toNat - 1, by omega⟩
  rw [hm, hq, hloop m]

/-- C6 witness: a one-element polymorphic-record array naming type "A"
against an empty registry fails with `NAME_NOT_FOUND`, both at the element
loop and for the whole value. -/
theorem C6_witness :
    readParcelableLoop (some []) 1 ⟨[1, 0, 0, 0, 1, 0, 0, 0, 65, 0, 0, 0], 4⟩ =
        .error .NAME_NOT_FOUND ∧
      parcel_read_value (some []) VAL_PARCELABLEARRAY
          ⟨[1, 0, 0, 0, 1, 0, 0, 0, 65, 0, 0, 0], 0⟩ = .error .NAME_NOT_FOUND :=
  C6_unregistered_name_aborts [] 0 ⟨[1, 0, 0, 0, 1, 0, 0, 0, 65, 0, 0, 0], 4⟩
    ⟨[1, 0, 0, 0, 1, 0, 0, 0, 65, 0, 0, 0], 12⟩ ⟨[1, 0, 0, 0, 1, 0, 0, 0, 65, 0, 0, 0], 0⟩
    ⟨[1, 0, 0, 0, 1, 0, 0, 0, 65, 0, 0, 0], 4⟩ [65] 1 rfl rfl rfl (by decide) rfl

/-- C8: for every well-formed String8 field with unsigned 32-bit length `len`
(terminator byte present, content valid UTF-8), decoding reads
`ceil((len+1)/4)` 32-bit words after the length field, returns bytes
`[0, len)` as the text, and advances the cursor by exactly
`4 * ceil((len+1)/4)` bytes beyond the length field, for every padding
remainder of `len`. -/
theorem C8_string8_wellformed (p p1 p2 : Parcel) (len : Nat) (ws : List Nat)
    (hr : p.readU32 = .ok (len, p1)) (hlen : len + 1 < 4294967296)
    (hw : readWords (divCeil4 (len + 1)) p1 = .ok (ws, p2))
    (hterm : (ws.map wordBytes).flatten.get? len = some 0)
    (hutf : utf8Valid ((ws.map wordBytes).flatten.take len) = true) :
    parcel_read_string8 p = .ok ((ws.map wordBytes).flatten.take len, p2) ∧
      p2.data = p1.data ∧ p2.pos = p1.pos + 4 * divCeil4 (len + 1) := by
  obtain ⟨hd, hp, _⟩ := readWords_state hw
  refine ⟨?_, hd, by omega⟩
  rw [parcel_read_string8, hr]
  dsimp only
  rw [Nat.mod_eq_of_lt hlen, hw]
  dsimp only
  rw [hterm]
  dsimp only
  rw [if_pos (rfl : (0 : Nat) = 0), if_pos hutf]

/-- C8 witness: a String8 of length 3 ("abc", one padded word) decodes to
its three content bytes with the cursor advanced by exactly 4 bytes beyond
the length field. -/
theorem C8_witness :
    parcel_read_string8 ⟨[3, 0, 0, 0, 97, 98, 99, 0], 0⟩ =
      .ok ([97, 98, 99], ⟨[3, 0, 0, 0, 97, 98, 99, 0], 8⟩) :=
  (C8_string8_wellformed ⟨[3, 0, 0, 0, 97, 98, 99, 0], 0⟩ ⟨[3, 0, 0, 0, 97, 98, 99, 0], 4⟩
      ⟨[3, 0, 0, 0, 97, 98, 99, 0], 8⟩ 3 [6513249] rfl (by decide) rfl rfl rfl).1

/-- C10: when boolean-array decoding returns `Null` because the count `n` is
negative or larger than the remaining words, the cursor is left immediately
after the 4-byte count field: no payload word is consumed and the declared
words are not skipped. -/
theorem C10_null_cursor_after_count (creators : Option Registry) (p p1 : Parcel) (n : Int)
    (h : p.readI32 = .ok (n, p1))
    (hg : n < 0 ∨ ((p1.data.length : Int) - (p1.pos : Int)).tdiv 4 < n) :
    parcel_read_value creators VAL_BOOLEANARRAY p = .ok (.Null, ⟨p.data, p.pos + 4⟩) ∧
      p1.data = p.data ∧ p1.pos = p.pos + 4 := by
  obtain ⟨hd, hpp, _⟩ := readI32_ok_state h
  have hp1 : p1 = ⟨p.data, p.pos + 4⟩ := by
    obtain ⟨d, q⟩ := p1
    simp_all
  refine ⟨?_, hd, hpp⟩
  rw [parcel_read_value]
  rw [if_neg (by decide : ¬ VAL_BOOLEANARRAY = VAL_PARCELABLEARRAY),
    if_neg (by decide : ¬ VAL_BOOLEANARRAY = VAL_LONGARRAY),
    if_pos (rfl : VAL_BOOLEANARRAY = VAL_BOOLEANARRAY), h]
  dsimp only
  have hng : ¬ (0 ≤ n ∧ n ≤ ((p1.data.length : Int) - (p1.pos : Int)).tdiv 4) := by
    rcases hg with hcase | hcase
    · exact fun hc => absurd hc.1 (not_le.mpr hcase)
    · exact fun hc => absurd hc.2 (not_le.mpr hcase)
  rw [if_neg hng, hp1]

/-- C10 witness: a negative count (−1) yields `Null` with the cursor at
offset 4, right after the count, leaving the declared payload unread. -/
theorem C10_witness :
    parcel_read_value none VAL_BOOLEANARRAY ⟨[255, 255, 255, 255, 5, 0, 0, 0], 0⟩ =
      .ok (.Null, ⟨[255, 255, 255, 255, 5, 0, 0, 0], 4⟩) :=
  (C10_null_cursor_after_count none ⟨[255, 255, 255, 255, 5, 0, 0, 0], 0⟩
      ⟨[255, 255, 255, 255, 5, 0, 0, 0], 4⟩ (-1) (by decide) (Or.inl (by decide))).1

end APS
